import Mathlib

/-!
Verification of the player locomotion and collision engine of the Onecity
front end (`FirstPersonControls` in `src/components/RegisterEnokiWallets.tsx`,
plus the minimap teleport caller in `src/components/game/Minimap.tsx`).

The per-tick simulation is embedded over the rationals.  `Math.sin` (used only
by the camera-bob offset) is passed to the tick as an abstract function
`sinq : ℚ → ℚ`; it never feeds back into the horizontal motion.  The camera
orientation is integrated by a separate real-valued model (`rotationLerp`);
the horizontal unit direction it induces (the local forward vector rotated by
the camera quaternion with its vertical component zeroed, source lines
513-520) enters the rational tick as the input fields `dirX`/`dirZ`.
-/

namespace Onecity

/-- `Math.min` on rationals. -/
def qmin (a b : ℚ) : ℚ := if a ≤ b then a else b

/-- `Math.max` on rationals. -/
def qmax (a b : ℚ) : ℚ := if a ≤ b then b else a

/-- `Math.round` on rationals: `⌊x + 1/2⌋`, which is JavaScript's
round-half-up semantics (also for negative arguments). -/
def jsRound (x : ℚ) : ℤ := Rat.floor (x + 0.5)

/-- A 3-component rational vector, modelling `THREE.Vector3` as used by the
engine (all engine arithmetic on positions is +, *, min, max, round). -/
structure Vec3 where
  x : ℚ
  y : ℚ
  z : ℚ
deriving DecidableEq, Repr

/-- Componentwise `THREE.Vector3.lerp`: `a + (b - a) * f`. -/
def Vec3.lerp (a b : Vec3) (f : ℚ) : Vec3 :=
  ⟨a.x + (b.x - a.x) * f, a.y + (b.y - a.y) * f, a.z + (b.z - a.z) * f⟩

/-- An axis-aligned box, modelling `THREE.Box3`. -/
structure Box3 where
  min : Vec3
  max : Vec3
deriving DecidableEq, Repr

/-- `THREE.Box3.intersectsBox` (inclusive on boundaries): `a.intersects b`
is false iff the two boxes are separated along some axis. -/
def Box3.intersects (a b : Box3) : Bool :=
  !(decide (b.max.x < a.min.x) || decide (b.min.x > a.max.x) ||
    decide (b.max.y < a.min.y) || decide (b.min.y > a.max.y) ||
    decide (b.max.z < a.min.z) || decide (b.min.z > a.max.z))

/-- Zone of a land cell (`ZoneType` in `src/types/game.ts`). -/
inductive Zone
  | residential
  | commercial
  | industrial
  | agricultural
  | park
  | road
  | billboard
deriving DecidableEq, Repr

/-- Development stage of a building (`DevelopmentStage` in `src/types/game.ts`). -/
inductive Stage
  | empty
  | foundation
  | construction
  | complete
deriving DecidableEq, Repr

/-- The fields of `Building` the engine reads.  `floors` is optional in the
source and occurs under a JavaScript truthiness test
(`land.building.floors ? ... : 1`), so `floors = 0` models both `0` and
`undefined`. -/
structure Building where
  stage : Stage
  floors : ℕ
deriving DecidableEq, Repr

/-- The fields of `Land` the engine reads. -/
structure Land where
  id : String
  x : ℤ
  y : ℤ
  zone : Zone
  building : Option Building
deriving DecidableEq, Repr

/-- Road set construction (source lines 180-185): the grid keys
`(land.x, land.y)` of every land whose zone is `road`. -/
def buildRoadSet (lands : List Land) : List (ℤ × ℤ) :=
  (lands.filter (fun l => l.zone == Zone.road)).map (fun l => (l.x, l.y))

/-- Collision-box construction (source lines 188-200): one box per land with a
complete building on a non-road cell, centered at `(land.x - 15, land.y - 15)`
with half-footprint 0.35 and height `floors * 0.2 + 1` (or `1` when `floors`
is absent/zero). -/
def buildCollisionBoxes (lands : List Land) : List Box3 :=
  lands.filterMap (fun l =>
    match l.building with
    | some b =>
        if b.stage == Stage.complete && !(l.zone == Zone.road) then
          let x : ℚ := (l.x : ℚ) - 15
          let z : ℚ := (l.y : ℚ) - 15
          let buildingHeight : ℚ := if b.floors ≠ 0 then (b.floors : ℚ) * 0.2 + 1 else 1
          some ⟨⟨x - 0.35, 0, z - 0.35⟩, ⟨x + 0.35, buildingHeight, z + 0.35⟩⟩
        else none
    | none => none)

/-- `isOnRoad` (source lines 455-459): snap the position to the nearest grid
cell with `Math.round(x + 15)` / `Math.round(z + 15)` and test road-set
membership. -/
def isOnRoad (roadSet : List (ℤ × ℤ)) (x z : ℚ) : Bool :=
  roadSet.contains (jsRound (x + 15), jsRound (z + 15))

/-- The player's collision box (source lines 465-468):
`Box3.setFromCenterAndSize` with center `(p.x, p.y + playerHeight/2, p.z)` and
size `(2 * playerRadius, playerHeight, 2 * playerRadius)`, `playerRadius = 0.3`. -/
def playerBoxAt (playerHeight : ℚ) (p : Vec3) : Box3 :=
  let playerRadius : ℚ := 0.3
  ⟨⟨p.x - playerRadius, p.y + playerHeight / 2 - playerHeight / 2, p.z - playerRadius⟩,
   ⟨p.x + playerRadius, p.y + playerHeight / 2 + playerHeight / 2, p.z + playerRadius⟩⟩

/-- Engine construction-time configuration (props of `FirstPersonControls`
together with the two structures `WorldIndex` builds from the land snapshot). -/
structure Config where
  speed : ℚ
  playerHeight : ℚ
  enableGravity : Bool
  enableCollision : Bool
  enableCameraBob : Bool
  roadSet : List (ℤ × ℤ)
  collisionBoxes : List Box3
deriving DecidableEq, Repr

/-- `checkCollision` (source lines 462-476): false when collision is disabled,
otherwise whether the player box centered at the candidate position intersects
any collision box. -/
def checkCollision (cfg : Config) (newPosition : Vec3) : Bool :=
  if !cfg.enableCollision then false
  else cfg.collisionBoxes.any (fun box => (playerBoxAt cfg.playerHeight newPosition).intersects box)

/-- `getGroundHeight` (source lines 479-482): constant 0. -/
def getGroundHeight (_x _z : ℚ) : ℚ := 0

/-- The per-tick mutable state of the engine (the refs of
`FirstPersonControls` that the `useFrame` tick reads and writes). -/
structure State where
  pos : Vec3
  targetPosition : Vec3
  currentPosition : Vec3
  velocityY : ℚ
  canJump : Bool
  cameraHeightOffset : ℚ
  bobTime : ℚ
  baseHeightRef : ℚ
deriving DecidableEq, Repr

/-- The per-tick inputs: held movement keys, plus the world-space horizontal
direction (the normalized local `(0,0,∓1)` vector rotated by the camera
quaternion with y zeroed, source lines 513-520). -/
structure Input where
  moveForward : Bool
  moveBackward : Bool
  moveUp : Bool
  moveDown : Bool
  dirX : ℚ
  dirZ : ℚ
deriving DecidableEq, Repr

/-- The candidate (target) position of a tick (source lines 522-534):
`camera.position + direction * (currentSpeed * delta * 60)` where
`currentSpeed = (speed * 2) * (onRoad ? 1 : 0.5)`. -/
def candidate (cfg : Config) (inp : Input) (dt : ℚ) (s : State) : Vec3 :=
  let onRoad := isOnRoad cfg.roadSet s.pos.x s.pos.z
  let baseSpeed := cfg.speed * 2
  let currentSpeed := if onRoad then baseSpeed else baseSpeed * 0.5
  ⟨s.pos.x + inp.dirX * (currentSpeed * dt * 60),
   s.pos.y,
   s.pos.z + inp.dirZ * (currentSpeed * dt * 60)⟩

/-- `cameraHeightOffset` update (source lines 549-556): Q raises by 0.05
clamped to 2, E lowers by 0.05 clamped to -1.5, in that order. -/
def updateHeightOffset (inp : Input) (off : ℚ) : ℚ :=
  let upDownSpeed : ℚ := 0.05
  let off1 := if inp.moveUp then qmin 2 (off + upDownSpeed) else off
  if inp.moveDown then qmax (-1.5) (off1 - upDownSpeed) else off1

/-- Movement with smooth interpolation and the collision test (source lines
512-547): on collision the candidate and smoothed positions collapse back to
the current position, otherwise the smoothed position lerps toward the
candidate with factor `min 1 (delta * 15)` and the camera's horizontal
position is set from it. -/
def moveStage (cfg : Config) (inp : Input) (dt : ℚ) (s : State) : State :=
  let cand := candidate cfg inp dt s
  if checkCollision cfg cand then
    { s with targetPosition := s.pos, currentPosition := s.pos }
  else
    let lerpFactor := qmin 1 (dt * 15)
    let cp := s.currentPosition.lerp cand lerpFactor
    { s with targetPosition := cand, currentPosition := cp,
             pos := ⟨cp.x, s.pos.y, cp.z⟩ }

/-- The Q/E height-offset update of a tick (source lines 549-556). -/
def offsetStage (inp : Input) (s : State) : State :=
  { s with cameraHeightOffset := updateHeightOffset inp s.cameraHeightOffset }

/-- Gravity integration (source lines 558-576): with gravity enabled apply
the per-tick gravity decrement, land on the ground target height when at or
below it while falling, otherwise integrate; with gravity disabled pin the
height to the base height. -/
def gravityStage (cfg : Config) (s : State) : State :=
  if cfg.enableGravity then
    let vy : ℚ := s.velocityY - 0.01
    let targetY : ℚ := getGroundHeight s.pos.x s.pos.z + cfg.playerHeight + s.cameraHeightOffset
    if s.pos.y ≤ targetY ∧ vy ≤ 0 then
      { s with pos := ⟨s.pos.x, targetY, s.pos.z⟩, velocityY := 0, canJump := true,
               baseHeightRef := targetY }
    else
      { s with pos := ⟨s.pos.x, s.pos.y + vy, s.pos.z⟩, velocityY := vy,
               baseHeightRef := targetY }
  else
    let base : ℚ := cfg.playerHeight + s.cameraHeightOffset
    { s with pos := ⟨s.pos.x, base, s.pos.z⟩, baseHeightRef := base }

/-- Camera bob (source lines 578-589): while moving horizontally, advance the
bob phase and set the height to the base height plus the bob offset;
otherwise reset the phase and, unless airborne under gravity, pin the height
to the base height. -/
def bobStage (cfg : Config) (sinq : ℚ → ℚ) (inp : Input) (dt : ℚ) (s : State) : State :=
  if cfg.enableCameraBob && (inp.moveForward || inp.moveBackward) then
    let bobTime := s.bobTime + dt * 8
    let bobOffset := sinq bobTime * 0.03
    { s with bobTime := bobTime,
             pos := ⟨s.pos.x, s.baseHeightRef + bobOffset, s.pos.z⟩ }
  else
    if !cfg.enableGravity || s.canJump then
      { s with bobTime := 0, pos := ⟨s.pos.x, s.baseHeightRef, s.pos.z⟩ }
    else
      { s with bobTime := 0 }

/-- One simulation tick before the final world-bounds clamp (the body of the
`useFrame` callback, source lines 512-589 in order, excluding the rotation
integration of lines 484-510 which is modelled separately by `rotationLerp`).
`sinq` abstracts `Math.sin`. -/
def tickCore (cfg : Config) (sinq : ℚ → ℚ) (inp : Input) (dt : ℚ) (s : State) : State :=
  bobStage cfg sinq inp dt (gravityStage cfg (offsetStage inp (moveStage cfg inp dt s)))

/-- The final world-bounds clamp of a tick (source lines 591-594):
both horizontal axes clamped to `[-15, 15]`. -/
def clampWorld (s : State) : State :=
  let worldSize : ℚ := 15
  { s with pos := ⟨qmax (-worldSize) (qmin worldSize s.pos.x), s.pos.y,
                   qmax (-worldSize) (qmin worldSize s.pos.z)⟩ }

/-- One full simulation tick: `tickCore` followed by the world-bounds clamp. -/
def tick (cfg : Config) (sinq : ℚ → ℚ) (inp : Input) (dt : ℚ) (s : State) : State :=
  clampWorld (tickCore cfg sinq inp dt s)

/-- The Space-key jump handler (source lines 402-408): when jump-eligible,
add 0.15 to the vertical velocity and clear eligibility. -/
def spaceJump (s : State) : State :=
  if s.canJump then { s with velocityY := s.velocityY + 0.15, canJump := false }
  else s

/-- `__teleportPlayer` (source lines 139-149): set position, smoothing
targets and base height to `(x, groundHeight + playerHeight + offset, z)` for
the current height offset, zero the vertical velocity, re-enable jumping. -/
def teleportPlayer (cfg : Config) (x z : ℚ) (s : State) : State :=
  let groundHeight : ℚ := 0
  let targetY := groundHeight + cfg.playerHeight + s.cameraHeightOffset
  { s with targetPosition := ⟨x, targetY, z⟩,
           currentPosition := ⟨x, targetY, z⟩,
           pos := ⟨x, targetY, z⟩,
           baseHeightRef := targetY,
           velocityY := 0,
           canJump := true }

/-- The minimap teleport caller `handleCanvasClick`
(`Minimap.tsx` lines 28-53): convert the canvas click to world coordinates,
clamp to world bounds, then invoke the teleport. -/
def minimapTeleport (size clickX clickY : ℚ) (cfg : Config) (s : State) : State :=
  let gridSize : ℚ := 30
  let cellSize := size / gridSize
  let worldX := clickX / cellSize - 15
  let worldZ := clickY / cellSize - 15
  let clampedX := qmax (-15) (qmin 15 worldX)
  let clampedZ := qmax (-15) (qmin 15 worldZ)
  teleportPlayer cfg clampedX clampedZ s

/-- A camera Euler orientation: `x` is pitch, `y` is yaw (`THREE.Euler`,
`YXZ` order; only these two components are integrated by the engine). -/
structure Euler2 where
  x : ℝ
  y : ℝ

/-- Yaw-delta normalization (source lines 504-506): one conditional step
bringing the delta toward `(-π, π]`. -/
noncomputable def normalizeDeltaY (d : ℝ) : ℝ :=
  if d > Real.pi then d - 2 * Real.pi
  else if d < -Real.pi then d + 2 * Real.pi
  else d

/-- Rotation smoothing (source lines 498-510): blend the current orientation
toward the target with factor `min 1 (delta * 15)`, the yaw delta passed
through `normalizeDeltaY` first. -/
noncomputable def rotationLerp (current target : Euler2) (delta : ℝ) : Euler2 :=
  let rotLerpFactor := min 1 (delta * 15)
  let deltaX := target.x - current.x
  let deltaY := target.y - current.y
  ⟨current.x + deltaX * rotLerpFactor,
   current.y + normalizeDeltaY deltaY * rotLerpFactor⟩

/-- One raycast hit against a land mesh: the mesh's `userData.landId` and the
hit distance along the ray.  The geometric ray/mesh intersection itself is
performed by the Three.js library (`raycaster.intersectObjects`), which hands
back hits sorted by ascending distance and filtered by `raycaster.far`; the
hit list is therefore the input of the selection logic. -/
structure RayHit where
  landId : String
  distance : ℚ
deriving DecidableEq, Repr

/-- The `raycaster.far = 50` filter applied by `intersectObjects`. -/
def hitsInRange (far : ℚ) (hits : List RayHit) : List RayHit :=
  hits.filter (fun h => decide (h.distance ≤ far))

/-- One comparison step of the closest-hit selection: keep the accumulator
unless the new hit is strictly closer. -/
def closerHit (acc : Option RayHit) (h : RayHit) : Option RayHit :=
  match acc with
  | none => some h
  | some b => if h.distance < b.distance then some h else some b

/-- `intersects[0]` of the distance-sorted hit list: the hit of minimal
distance (first such hit on ties, matching a stable ascending sort). -/
def closestHit (hits : List RayHit) : Option RayHit :=
  hits.foldl closerHit none

/-- The click-to-select query (source lines 332-374): nearest hit within
distance 50, looked up in the land list by id; a road cell (or a missing or
out-of-range hit) yields no selection. -/
def pickCell (lands : List Land) (hits : List RayHit) : Option String :=
  match closestHit (hitsInRange 50 hits) with
  | none => none
  | some closest =>
      match lands.find? (fun l => l.id == closest.landId) with
      | some land => if !(land.zone == Zone.road) then some land.id else none
      | none => none

/-- Iterated simulation: `n` ticks with a fixed configuration, input and `dt`. -/
def tickIter (cfg : Config) (sinq : ℚ → ℚ) (inp : Input) (dt : ℚ) : ℕ → State → State
  | 0, s => s
  | n + 1, s => tickIter cfg sinq inp dt n (tick cfg sinq inp dt s)

/-- Simulation over a list of tick durations. -/
def runTicks (cfg : Config) (sinq : ℚ → ℚ) (inp : Input) : List ℚ → State → State
  | [], s => s
  | dt :: rest, s => runTicks cfg sinq inp rest (tick cfg sinq inp dt s)

/-- Whether the final world-bounds clamp of the tick starting from `s` is a
no-op (the position produced by `tickCore` is already inside the world). -/
def preClampInBounds (cfg : Config) (sinq : ℚ → ℚ) (inp : Input) (dt : ℚ) (s : State) : Bool :=
  let t := tickCore cfg sinq inp dt s
  decide (-15 ≤ t.pos.x) && decide (t.pos.x ≤ 15) &&
  decide (-15 ≤ t.pos.z) && decide (t.pos.z ≤ 15)

/-- A run over `dts` in which every tick sees road-membership `r` at its
current position, no tick's candidate position collides, and no tick's
world-bounds clamp binds. -/
def steadyRun (cfg : Config) (sinq : ℚ → ℚ) (inp : Input) (r : Bool) :
    List ℚ → State → Bool
  | [], _ => true
  | dt :: rest, s =>
      (isOnRoad cfg.roadSet s.pos.x s.pos.z == r) &&
      !(checkCollision cfg (candidate cfg inp dt s)) &&
      preClampInBounds cfg sinq inp dt s &&
      steadyRun cfg sinq inp r rest (tick cfg sinq inp dt s)

/-- The vertical-state projection `(position.y, velocityY, canJump)` of one
tick under gravity with no held movement keys (proved to agree with `tick` in
the lemmas below); `targetY` is the ground target height
`groundHeight + playerHeight + cameraHeightOffset`. -/
def vstep (targetY : ℚ) (v : ℚ × ℚ × Bool) : ℚ × ℚ × Bool :=
  let vy1 : ℚ := v.2.1 - 0.01
  if v.1 ≤ targetY ∧ vy1 ≤ 0 then (targetY, 0, true)
  else if v.2.2 then (targetY, vy1, v.2.2)
  else (v.1 + vy1, vy1, v.2.2)

/-- Iterated vertical-state projection. -/
def vrun (targetY : ℚ) : ℕ → ℚ × ℚ × Bool → ℚ × ℚ × Bool
  | 0, v => v
  | n + 1, v => vrun targetY n (vstep targetY v)

/-- A stand-in for `Math.sin` used for concrete runs whose horizontal motion
is independent of the bob offset. -/
def zeroSin : ℚ → ℚ := fun _ => 0

/-- The default engine configuration (`speed = 0.1`, `playerHeight = 1.6`,
gravity, collision and camera bob enabled) over an empty world snapshot. -/
def sampleConfig : Config := ⟨0.1, 1.6, true, true, true, [], []⟩

/-- The spawn state (source lines 170-177): camera at `(0, playerHeight, 0)`,
smoothing targets synchronized, `canJump` initially false. -/
def spawnState : State := ⟨⟨0, 1.6, 0⟩, ⟨0, 1.6, 0⟩, ⟨0, 1.6, 0⟩, 0, false, 0, 0, 1.6⟩

/-- A grounded, jump-eligible rest state at the spawn position. -/
def restState : State := ⟨⟨0, 1.6, 0⟩, ⟨0, 1.6, 0⟩, ⟨0, 1.6, 0⟩, 0, true, 0, 0, 1.6⟩

/-- Constant forward input, direction `(0, 0, -1)` (forward at yaw 0). -/
def forwardInput : Input := ⟨true, false, false, false, 0, -1⟩

/-- No held keys. -/
def noInput : Input := ⟨false, false, false, false, 0, 0⟩

/-- The horizontal displacement `(Δx, Δz)` realized by one collision-free,
clamp-free tick starting in a state whose smoothed position agrees with the
camera position: the candidate move scaled by the interpolation factor. -/
def stepDisp (cfg : Config) (inp : Input) (dt : ℚ) (s : State) : ℚ × ℚ :=
  let currentSpeed : ℚ :=
    if isOnRoad cfg.roadSet s.pos.x s.pos.z then cfg.speed * 2 else cfg.speed * 2 * 0.5
  (inp.dirX * (currentSpeed * dt * 60) * qmin 1 (dt * 15),
   inp.dirZ * (currentSpeed * dt * 60) * qmin 1 (dt * 15))

/-- The constant per-tick x-displacement of a collision-free, clamp-free,
everywhere-off-road run. -/
def offroadDispX (cfg : Config) (inp : Input) (dt : ℚ) : ℚ :=
  inp.dirX * ((cfg.speed * 2 * 0.5) * dt * 60) * qmin 1 (dt * 15)

/-- The constant per-tick z-displacement of a collision-free, clamp-free,
everywhere-off-road run. -/
def offroadDispZ (cfg : Config) (inp : Input) (dt : ℚ) : ℚ :=
  inp.dirZ * ((cfg.speed * 2 * 0.5) * dt * 60) * qmin 1 (dt * 15)

/-- The default configuration over a world whose only road cell is the spawn
cell `(15, 15)`. -/
def roadConfig : Config := ⟨0.1, 1.6, true, true, true, [(15, 15)], []⟩

/-- A grounded state away from the road cell (grid cell `(25, 15)`). -/
def offroadState : State := ⟨⟨10, 1.6, 0⟩, ⟨10, 1.6, 0⟩, ⟨10, 1.6, 0⟩, 0, false, 0, 0, 1.6⟩

/-- The default configuration over a world with one completed 5-floor
building at grid cell `(20, 20)`, i.e. the world-space box
`[4.65, 0, 4.65] – [5.35, 2, 5.35]`. -/
def collideConfig : Config :=
  ⟨0.1, 1.6, true, true, true, [], [⟨⟨4.65, 0, 4.65⟩, ⟨5.35, 2, 5.35⟩⟩]⟩

/-- A grounded state just west of that building. -/
def collideState : State :=
  ⟨⟨4.3, 1.6, 5⟩, ⟨4.3, 1.6, 5⟩, ⟨4.3, 1.6, 5⟩, 0, true, 0, 0, 1.6⟩

/-- Constant forward input with the camera facing `+x`. -/
def plusXInput : Input := ⟨true, false, false, false, 1, 0⟩

/-- A road-zoned land cell. -/
def roadLand : Land := ⟨"r1", 5, 5, Zone.road, none⟩

/-- A residential (selectable) land cell. -/
def plotLand : Land := ⟨"p1", 6, 5, Zone.residential, none⟩

/-- A sample hit list: the residential cell at distance 10, the road cell at
distance 60 (beyond the raycast range). -/
def sampleHits : List RayHit := [⟨"p1", 10⟩, ⟨"r1", 60⟩]

lemma qclamp_lower (v : ℚ) : -15 ≤ qmax (-15) (qmin 15 v) := by
  unfold qmax qmin
  split_ifs <;> linarith

lemma qclamp_upper (v : ℚ) : qmax (-15) (qmin 15 v) ≤ 15 := by
  unfold qmax qmin
  split_ifs <;> linarith

lemma qclamp_eq_self {v : ℚ} (h1 : -15 ≤ v) (h2 : v ≤ 15) :
    qmax (-15) (qmin 15 v) = v := by
  unfold qmax qmin
  split_ifs <;> linarith

lemma clampWorld_fields (s : State) :
    (clampWorld s).pos.x = qmax (-15) (qmin 15 s.pos.x) ∧
    (clampWorld s).pos.z = qmax (-15) (qmin 15 s.pos.z) ∧
    (clampWorld s).pos.y = s.pos.y ∧
    (clampWorld s).targetPosition = s.targetPosition ∧
    (clampWorld s).currentPosition = s.currentPosition ∧
    (clampWorld s).velocityY = s.velocityY ∧
    (clampWorld s).canJump = s.canJump ∧
    (clampWorld s).cameraHeightOffset = s.cameraHeightOffset ∧
    (clampWorld s).bobTime = s.bobTime ∧
    (clampWorld s).baseHeightRef = s.baseHeightRef := by
  simp [clampWorld]

lemma moveStage_vert (cfg : Config) (inp : Input) (dt : ℚ) (s : State) :
    (moveStage cfg inp dt s).pos.y = s.pos.y ∧
    (moveStage cfg inp dt s).velocityY = s.velocityY ∧
    (moveStage cfg inp dt s).canJump = s.canJump ∧
    (moveStage cfg inp dt s).cameraHeightOffset = s.cameraHeightOffset ∧
    (moveStage cfg inp dt s).bobTime = s.bobTime ∧
    (moveStage cfg inp dt s).baseHeightRef = s.baseHeightRef := by
  simp only [moveStage]
  split_ifs <;> simp

lemma gravityStage_horiz (cfg : Config) (s : State) :
    (gravityStage cfg s).pos.x = s.pos.x ∧
    (gravityStage cfg s).pos.z = s.pos.z ∧
    (gravityStage cfg s).targetPosition = s.targetPosition ∧
    (gravityStage cfg s).currentPosition = s.currentPosition ∧
    (gravityStage cfg s).cameraHeightOffset = s.cameraHeightOffset ∧
    (gravityStage cfg s).bobTime = s.bobTime := by
  simp only [gravityStage]
  split_ifs <;> simp

lemma bobStage_horiz (cfg : Config) (sinq : ℚ → ℚ) (inp : Input) (dt : ℚ) (s : State) :
    (bobStage cfg sinq inp dt s).pos.x = s.pos.x ∧
    (bobStage cfg sinq inp dt s).pos.z = s.pos.z ∧
    (bobStage cfg sinq inp dt s).targetPosition = s.targetPosition ∧
    (bobStage cfg sinq inp dt s).currentPosition = s.currentPosition ∧
    (bobStage cfg sinq inp dt s).velocityY = s.velocityY ∧
    (bobStage cfg sinq inp dt s).canJump = s.canJump ∧
    (bobStage cfg sinq inp dt s).cameraHeightOffset = s.cameraHeightOffset ∧
    (bobStage cfg sinq inp dt s).baseHeightRef = s.baseHeightRef := by
  simp only [bobStage]
  split_ifs <;> simp

lemma offsetStage_fields (inp : Input) (s : State) :
    (offsetStage inp s).pos = s.pos ∧
    (offsetStage inp s).targetPosition = s.targetPosition ∧
    (offsetStage inp s).currentPosition = s.currentPosition ∧
    (offsetStage inp s).velocityY = s.velocityY ∧
    (offsetStage inp s).canJump = s.canJump ∧
    (offsetStage inp s).bobTime = s.bobTime ∧
    (offsetStage inp s).baseHeightRef = s.baseHeightRef := by
  simp [offsetStage]

lemma tickCore_horiz (cfg : Config) (sinq : ℚ → ℚ) (inp : Input) (dt : ℚ) (s : State) :
    (tickCore cfg sinq inp dt s).pos.x = (moveStage cfg inp dt s).pos.x ∧
    (tickCore cfg sinq inp dt s).pos.z = (moveStage cfg inp dt s).pos.z ∧
    (tickCore cfg sinq inp dt s).targetPosition = (moveStage cfg inp dt s).targetPosition ∧
    (tickCore cfg sinq inp dt s).currentPosition = (moveStage cfg inp dt s).currentPosition := by
  obtain ⟨g1, g2, g3, g4, -, -⟩ := gravityStage_horiz cfg (offsetStage inp (moveStage cfg inp dt s))
  obtain ⟨b1, b2, b3, b4, -, -, -, -⟩ :=
    bobStage_horiz cfg sinq inp dt (gravityStage cfg (offsetStage inp (moveStage cfg inp dt s)))
  obtain ⟨o1, o2, o3, -, -, -, -⟩ := offsetStage_fields inp (moveStage cfg inp dt s)
  refine ⟨?_, ?_, ?_, ?_⟩
  · rw [tickCore, b1, g1, o1]
  · rw [tickCore, b2, g2, o1]
  · rw [tickCore, b3, g3, o2]
  · rw [tickCore, b4, g4, o3]

lemma tick_horiz (cfg : Config) (sinq : ℚ → ℚ) (inp : Input) (dt : ℚ) (s : State) :
    (tick cfg sinq inp dt s).pos.x
        = qmax (-15) (qmin 15 (moveStage cfg inp dt s).pos.x) ∧
    (tick cfg sinq inp dt s).pos.z
        = qmax (-15) (qmin 15 (moveStage cfg inp dt s).pos.z) ∧
    (tick cfg sinq inp dt s).targetPosition = (moveStage cfg inp dt s).targetPosition ∧
    (tick cfg sinq inp dt s).currentPosition = (moveStage cfg inp dt s).currentPosition := by
  obtain ⟨t1, t2, t3, t4⟩ := tickCore_horiz cfg sinq inp dt s
  obtain ⟨c1, c2, -, c4, c5, -, -, -, -, -⟩ := clampWorld_fields (tickCore cfg sinq inp dt s)
  exact ⟨by rw [tick, c1, t1], by rw [tick, c2, t2], by rw [tick, c4, t3], by rw [tick, c5, t4]⟩

lemma moveStage_free (cfg : Config) (inp : Input) (dt : ℚ) (s : State)
    (hc : checkCollision cfg (candidate cfg inp dt s) = false) :
    moveStage cfg inp dt s
      = { s with targetPosition := candidate cfg inp dt s,
                 currentPosition := s.currentPosition.lerp (candidate cfg inp dt s) (qmin 1 (dt * 15)),
                 pos := ⟨(s.currentPosition.lerp (candidate cfg inp dt s) (qmin 1 (dt * 15))).x,
                         s.pos.y,
                         (s.currentPosition.lerp (candidate cfg inp dt s) (qmin 1 (dt * 15))).z⟩ } := by
  simp [moveStage, hc]

lemma moveStage_collide (cfg : Config) (inp : Input) (dt : ℚ) (s : State)
    (hc : checkCollision cfg (candidate cfg inp dt s) = true) :
    moveStage cfg inp dt s = { s with targetPosition := s.pos, currentPosition := s.pos } := by
  simp [moveStage, hc]

lemma lerp_step_x (cfg : Config) (inp : Input) (dt : ℚ) (s : State)
    (hx : s.currentPosition.x = s.pos.x) :
    (s.currentPosition.lerp (candidate cfg inp dt s) (qmin 1 (dt * 15))).x
      = s.pos.x + (stepDisp cfg inp dt s).1 := by
  simp only [Vec3.lerp, candidate, stepDisp, hx]
  split_ifs <;> ring

lemma lerp_step_z (cfg : Config) (inp : Input) (dt : ℚ) (s : State)
    (hz : s.currentPosition.z = s.pos.z) :
    (s.currentPosition.lerp (candidate cfg inp dt s) (qmin 1 (dt * 15))).z
      = s.pos.z + (stepDisp cfg inp dt s).2 := by
  simp only [Vec3.lerp, candidate, stepDisp, hz]
  split_ifs <;> ring

lemma tick_free_step (cfg : Config) (sinq : ℚ → ℚ) (inp : Input) (dt : ℚ) (s : State)
    (hc : checkCollision cfg (candidate cfg inp dt s) = false)
    (hx : s.currentPosition.x = s.pos.x) (hz : s.currentPosition.z = s.pos.z)
    (hb1 : -15 ≤ s.pos.x + (stepDisp cfg inp dt s).1)
    (hb2 : s.pos.x + (stepDisp cfg inp dt s).1 ≤ 15)
    (hb3 : -15 ≤ s.pos.z + (stepDisp cfg inp dt s).2)
    (hb4 : s.pos.z + (stepDisp cfg inp dt s).2 ≤ 15) :
    (tick cfg sinq inp dt s).pos.x = s.pos.x + (stepDisp cfg inp dt s).1 ∧
    (tick cfg sinq inp dt s).pos.z = s.pos.z + (stepDisp cfg inp dt s).2 ∧
    (tick cfg sinq inp dt s).currentPosition.x = (tick cfg sinq inp dt s).pos.x ∧
    (tick cfg sinq inp dt s).currentPosition.z = (tick cfg sinq inp dt s).pos.z := by
  obtain ⟨t1, t2, t3, t4⟩ := tick_horiz cfg sinq inp dt s
  have hm := moveStage_free cfg inp dt s hc
  have hmx : (moveStage cfg inp dt s).pos.x = s.pos.x + (stepDisp cfg inp dt s).1 := by
    rw [hm]
    exact lerp_step_x cfg inp dt s hx
  have hmz : (moveStage cfg inp dt s).pos.z = s.pos.z + (stepDisp cfg inp dt s).2 := by
    rw [hm]
    exact lerp_step_z cfg inp dt s hz
  have hpx : (tick cfg sinq inp dt s).pos.x = s.pos.x + (stepDisp cfg inp dt s).1 := by
    rw [t1, hmx, qclamp_eq_self hb1 hb2]
  have hpz : (tick cfg sinq inp dt s).pos.z = s.pos.z + (stepDisp cfg inp dt s).2 := by
    rw [t2, hmz, qclamp_eq_self hb3 hb4]
  have hcx : (tick cfg sinq inp dt s).currentPosition.x = s.pos.x + (stepDisp cfg inp dt s).1 := by
    rw [t4, hm]
    exact lerp_step_x cfg inp dt s hx
  have hcz : (tick cfg sinq inp dt s).currentPosition.z = s.pos.z + (stepDisp cfg inp dt s).2 := by
    rw [t4, hm]
    exact lerp_step_z cfg inp dt s hz
  exact ⟨hpx, hpz, by rw [hcx, hpx], by rw [hcz, hpz]⟩

lemma tick_collide_step (cfg : Config) (sinq : ℚ → ℚ) (inp : Input) (dt : ℚ) (s : State)
    (hc : checkCollision cfg (candidate cfg inp dt s) = true)
    (hb1 : -15 ≤ s.pos.x) (hb2 : s.pos.x ≤ 15) (hb3 : -15 ≤ s.pos.z) (hb4 : s.pos.z ≤ 15) :
    (tick cfg sinq inp dt s).pos.x = s.pos.x ∧
    (tick cfg sinq inp dt s).pos.z = s.pos.z ∧
    (tick cfg sinq inp dt s).targetPosition.x = s.pos.x ∧
    (tick cfg sinq inp dt s).targetPosition.z = s.pos.z ∧
    (tick cfg sinq inp dt s).currentPosition.x = s.pos.x ∧
    (tick cfg sinq inp dt s).currentPosition.z = s.pos.z := by
  obtain ⟨t1, t2, t3, t4⟩ := tick_horiz cfg sinq inp dt s
  have hm := moveStage_collide cfg inp dt s hc
  refine ⟨?_, ?_, ?_, ?_, ?_, ?_⟩
  · rw [t1, hm]
    exact qclamp_eq_self hb1 hb2
  · rw [t2, hm]
    exact qclamp_eq_self hb3 hb4
  · rw [t3, hm]
  · rw [t3, hm]
  · rw [t4, hm]
  · rw [t4, hm]

lemma checkCollision_nil (cfg : Config) (h : cfg.collisionBoxes = []) (p : Vec3) :
    checkCollision cfg p = false := by
  cases he : cfg.enableCollision <;> simp [checkCollision, h, he]

lemma stepDisp_offroad (cfg : Config) (inp : Input) (dt : ℚ) (s : State)
    (hroad : cfg.roadSet = []) :
    stepDisp cfg inp dt s = (offroadDispX cfg inp dt, offroadDispZ cfg inp dt) := by
  simp [stepDisp, offroadDispX, offroadDispZ, isOnRoad, hroad]

lemma runTicks_replicate_offroad (cfg : Config) (sinq : ℚ → ℚ) (inp : Input) (dt : ℚ)
    (n : ℕ) (s : State)
    (hroad : cfg.roadSet = []) (hboxes : cfg.collisionBoxes = [])
    (hx : s.currentPosition.x = s.pos.x) (hz : s.currentPosition.z = s.pos.z)
    (hbnd : ∀ k : ℕ, k ≤ n →
      -15 ≤ s.pos.x + k * offroadDispX cfg inp dt ∧
      s.pos.x + k * offroadDispX cfg inp dt ≤ 15 ∧
      -15 ≤ s.pos.z + k * offroadDispZ cfg inp dt ∧
      s.pos.z + k * offroadDispZ cfg inp dt ≤ 15) :
    (runTicks cfg sinq inp (List.replicate n dt) s).pos.x
        = s.pos.x + n * offroadDispX cfg inp dt ∧
    (runTicks cfg sinq inp (List.replicate n dt) s).pos.z
        = s.pos.z + n * offroadDispZ cfg inp dt := by
  induction n generalizing s with
  | zero => simp [runTicks]
  | succ n ih =>
      have hc := checkCollision_nil cfg hboxes (candidate cfg inp dt s)
      have hsd := stepDisp_offroad cfg inp dt s hroad
      have hb := hbnd 1 (by omega)
      have hb1 : -15 ≤ s.pos.x + (stepDisp cfg inp dt s).1 := by
        rw [hsd]
        simpa using hb.1
      have hb2 : s.pos.x + (stepDisp cfg inp dt s).1 ≤ 15 := by
        rw [hsd]
        simpa using hb.2.1
      have hb3 : -15 ≤ s.pos.z + (stepDisp cfg inp dt s).2 := by
        rw [hsd]
        simpa using hb.2.2.1
      have hb4 : s.pos.z + (stepDisp cfg inp dt s).2 ≤ 15 := by
        rw [hsd]
        simpa using hb.2.2.2
      obtain ⟨p1, p2, p3, p4⟩ := tick_free_step cfg sinq inp dt s hc hx hz hb1 hb2 hb3 hb4
      have hdx : (tick cfg sinq inp dt s).pos.x = s.pos.x + offroadDispX cfg inp dt := by
        rw [p1, hsd]
      have hdz : (tick cfg sinq inp dt s).pos.z = s.pos.z + offroadDispZ cfg inp dt := by
        rw [p2, hsd]
      have hbnd' : ∀ k : ℕ, k ≤ n →
          -15 ≤ (tick cfg sinq inp dt s).pos.x + k * offroadDispX cfg inp dt ∧
          (tick cfg sinq inp dt s).pos.x + k * offroadDispX cfg inp dt ≤ 15 ∧
          -15 ≤ (tick cfg sinq inp dt s).pos.z + k * offroadDispZ cfg inp dt ∧
          (tick cfg sinq inp dt s).pos.z + k * offroadDispZ cfg inp dt ≤ 15 := by
        intro k hk
        have h := hbnd (k + 1) (by omega)
        rw [hdx, hdz]
        push_cast at h ⊢
        refine ⟨by linarith [h.1], by linarith [h.2.1], by linarith [h.2.2.1], by linarith [h.2.2.2]⟩
      have ih' := ih (tick cfg sinq inp dt s) (by rw [p3]) (by rw [p4]) hbnd'
      have hrun : runTicks cfg sinq inp (List.replicate (n + 1) dt) s
          = runTicks cfg sinq inp (List.replicate n dt) (tick cfg sinq inp dt s) := by
        rw [List.replicate_succ]
        rfl
      rw [hrun, ih'.1, ih'.2, hdx, hdz]
      push_cast
      constructor <;> ring

lemma updateHeightOffset_id (inp : Input) (off : ℚ)
    (hu : inp.moveUp = false) (hd : inp.moveDown = false) :
    updateHeightOffset inp off = off := by
  simp [updateHeightOffset, hu, hd]

lemma gravity_bob_vert (cfg : Config) (sinq : ℚ → ℚ) (inp : Input) (dt : ℚ) (t : State)
    (hg : cfg.enableGravity = true)
    (hf : inp.moveForward = false) (hb : inp.moveBackward = false) :
    ((bobStage cfg sinq inp dt (gravityStage cfg t)).pos.y,
     (bobStage cfg sinq inp dt (gravityStage cfg t)).velocityY,
     (bobStage cfg sinq inp dt (gravityStage cfg t)).canJump)
      = vstep (cfg.playerHeight + t.cameraHeightOffset) (t.pos.y, t.velocityY, t.canJump) := by
  by_cases hland : t.pos.y ≤ cfg.playerHeight + t.cameraHeightOffset ∧ t.velocityY - 0.01 ≤ 0
  · have hgr : gravityStage cfg t
        = { t with pos := ⟨t.pos.x, cfg.playerHeight + t.cameraHeightOffset, t.pos.z⟩,
                   velocityY := 0, canJump := true,
                   baseHeightRef := cfg.playerHeight + t.cameraHeightOffset } := by
      simp only [gravityStage, hg, if_true, getGroundHeight, zero_add]
      rw [if_pos hland]
    rw [hgr]
    simp only [bobStage, hf, hb, Bool.or_self, Bool.and_false, vstep]
    rw [if_pos hland]
    simp [hg]
  · have hgr : gravityStage cfg t
        = { t with pos := ⟨t.pos.x, t.pos.y + (t.velocityY - 0.01), t.pos.z⟩,
                   velocityY := t.velocityY - 0.01,
                   baseHeightRef := cfg.playerHeight + t.cameraHeightOffset } := by
      simp only [gravityStage, hg, if_true, getGroundHeight, zero_add]
      rw [if_neg hland]
    rw [hgr]
    simp only [bobStage, hf, hb, Bool.or_self, Bool.and_false, vstep]
    rw [if_neg hland]
    cases hcj : t.canJump <;> simp [hg, hcj]

lemma tick_vert (cfg : Config) (sinq : ℚ → ℚ) (inp : Input) (dt : ℚ) (s : State)
    (hg : cfg.enableGravity = true)
    (hf : inp.moveForward = false) (hb : inp.moveBackward = false)
    (hu : inp.moveUp = false) (hd : inp.moveDown = false) :
    ((tick cfg sinq inp dt s).pos.y, (tick cfg sinq inp dt s).velocityY,
     (tick cfg sinq inp dt s).canJump)
      = vstep (cfg.playerHeight + s.cameraHeightOffset) (s.pos.y, s.velocityY, s.canJump) ∧
    (tick cfg sinq inp dt s).cameraHeightOffset = s.cameraHeightOffset := by
  obtain ⟨m1, m2, m3, m4, -, -⟩ := moveStage_vert cfg inp dt s
  obtain ⟨o1, -, -, o4, o5, -, -⟩ := offsetStage_fields inp (moveStage cfg inp dt s)
  have hoff : (offsetStage inp (moveStage cfg inp dt s)).cameraHeightOffset
      = s.cameraHeightOffset := by
    show updateHeightOffset inp (moveStage cfg inp dt s).cameraHeightOffset = _
    rw [updateHeightOffset_id inp _ hu hd, m4]
  have hv := gravity_bob_vert cfg sinq inp dt (offsetStage inp (moveStage cfg inp dt s)) hg hf hb
  rw [hoff, o1, m1, o4, m2, o5, m3] at hv
  obtain ⟨-, -, c3, -, -, c6, c7, c8, -, -⟩ :=
    clampWorld_fields (tickCore cfg sinq inp dt s)
  constructor
  · rw [tick, c3, c6, c7]
    exact hv
  · rw [tick, c8]
    show (bobStage _ _ _ _ (gravityStage _ _)).cameraHeightOffset = _
    obtain ⟨-, -, -, -, -, -, b7, -⟩ :=
      bobStage_horiz cfg sinq inp dt (gravityStage cfg (offsetStage inp (moveStage cfg inp dt s)))
    obtain ⟨-, -, -, -, g5, -⟩ := gravityStage_horiz cfg (offsetStage inp (moveStage cfg inp dt s))
    rw [b7, g5, hoff]

lemma vstep_shift (T d : ℚ) (v : ℚ × ℚ × Bool) :
    vstep (T + d) (v.1 + d, v.2.1, v.2.2)
      = ((vstep T v).1 + d, (vstep T v).2.1, (vstep T v).2.2) := by
  simp only [vstep, add_le_add_iff_right]
  split_ifs <;> simp <;> ring

lemma vrun_shift (T d : ℚ) (n : ℕ) (v : ℚ × ℚ × Bool) :
    vrun (T + d) n (v.1 + d, v.2.1, v.2.2)
      = ((vrun T n v).1 + d, (vrun T n v).2.1, (vrun T n v).2.2) := by
  induction n generalizing v with
  | zero => simp [vrun]
  | succ n ih =>
      show vrun (T + d) n (vstep (T + d) (v.1 + d, v.2.1, v.2.2)) = _
      rw [vstep_shift]
      have := ih (vstep T v)
      rw [this]
      rfl

lemma tickIter_vert (cfg : Config) (sinq : ℚ → ℚ) (inp : Input) (dt : ℚ)
    (hg : cfg.enableGravity = true)
    (hf : inp.moveForward = false) (hb : inp.moveBackward = false)
    (hu : inp.moveUp = false) (hd : inp.moveDown = false) :
    ∀ (n : ℕ) (s : State),
      ((tickIter cfg sinq inp dt n s).pos.y, (tickIter cfg sinq inp dt n s).velocityY,
       (tickIter cfg sinq inp dt n s).canJump)
        = vrun (cfg.playerHeight + s.cameraHeightOffset) n (s.pos.y, s.velocityY, s.canJump) ∧
      (tickIter cfg sinq inp dt n s).cameraHeightOffset = s.cameraHeightOffset := by
  intro n
  induction n with
  | zero => intro s; exact ⟨rfl, rfl⟩
  | succ n ih =>
      intro s
      obtain ⟨h1, h2⟩ := tick_vert cfg sinq inp dt s hg hf hb hu hd
      obtain ⟨i1, i2⟩ := ih (tick cfg sinq inp dt s)
      have hit : tickIter cfg sinq inp dt (n + 1) s
          = tickIter cfg sinq inp dt n (tick cfg sinq inp dt s) := rfl
      refine ⟨?_, ?_⟩
      · rw [hit, i1, h2, h1]
        rfl
      · rw [hit, i2, h2]

lemma vrun_roundtrip : vrun 0 30 (0, 0.15, false) = (0, 0, true) := by
  norm_num [vrun, vstep]

lemma closerHit_some (acc : Option RayHit) (h : RayHit) :
    ∃ c, closerHit acc h = some c ∧ (c = h ∨ acc = some c) ∧ c.distance ≤ h.distance ∧
      ∀ b, acc = some b → c.distance ≤ b.distance := by
  match acc with
  | none =>
      exact ⟨h, rfl, Or.inl rfl, le_refl _, by intro b hb; cases hb⟩
  | some b =>
      by_cases hlt : h.distance < b.distance
      · refine ⟨h, by simp [closerHit, hlt], Or.inl rfl, le_refl _, ?_⟩
        intro b' hb'
        cases hb'
        exact le_of_lt hlt
      · refine ⟨b, by simp [closerHit, hlt], Or.inr rfl, le_of_not_lt hlt, ?_⟩
        intro b' hb'
        cases hb'
        exact le_refl _

lemma closestHit_aux (l : List RayHit) : ∀ (acc : Option RayHit) (h : RayHit),
    l.foldl closerHit acc = some h →
    (acc = some h ∨ h ∈ l) ∧ (∀ b, acc = some b → h.distance ≤ b.distance) ∧
      ∀ h' ∈ l, h.distance ≤ h'.distance := by
  induction l with
  | nil =>
      intro acc h hfold
      refine ⟨Or.inl hfold, ?_, by simp⟩
      intro b hb
      rw [hb] at hfold
      cases hfold
      exact le_refl _
  | cons x xs ih =>
      intro acc h hfold
      obtain ⟨c, hcx, hcmem, hcle, hcb⟩ := closerHit_some acc x
      have hfold' : xs.foldl closerHit (some c) = some h := by
        simpa [List.foldl_cons, hcx] using hfold
      obtain ⟨hm, hb, hrest⟩ := ih (some c) h hfold'
      have hhc : h.distance ≤ c.distance := hb c rfl
      constructor
      · rcases hm with hm | hm
        · cases hm
          rcases hcmem with hc | hc
          · exact Or.inr (by rw [hc]; exact List.mem_cons_self x xs)
          · exact Or.inl hc
        · exact Or.inr (List.mem_cons_of_mem x hm)
      refine ⟨?_, ?_⟩
      · intro b hab
        exact le_trans hhc (hcb b hab)
      · intro h' hh'
        rcases List.mem_cons.mp hh' with hh | hh
        · rw [hh]
          exact le_trans hhc hcle
        · exact hrest h' hh

lemma closestHit_spec (l : List RayHit) (h : RayHit) (hc : closestHit l = some h) :
    h ∈ l ∧ ∀ h' ∈ l, h.distance ≤ h'.distance := by
  obtain ⟨hm, -, hrest⟩ := closestHit_aux l none h hc
  rcases hm with hm | hm
  · cases hm
  · exact ⟨hm, hrest⟩

lemma mem_hitsInRange (far : ℚ) (l : List RayHit) (h : RayHit) :
    h ∈ hitsInRange far l ↔ h ∈ l ∧ h.distance ≤ far := by
  simp [hitsInRange]

lemma gravityStage_base (cfg : Config) (t : State) (hg : cfg.enableGravity = true) :
    (gravityStage cfg t).baseHeightRef = cfg.playerHeight + t.cameraHeightOffset ∧
    ((gravityStage cfg t).velocityY = t.velocityY - 0.01 ∨ (gravityStage cfg t).velocityY = 0) ∧
    (gravityStage cfg t).bobTime = t.bobTime := by
  simp only [gravityStage, hg, if_true, getGroundHeight, zero_add]
  split_ifs <;> simp

lemma bobStage_moving (cfg : Config) (sinq : ℚ → ℚ) (inp : Input) (dt : ℚ) (t : State)
    (hbob : cfg.enableCameraBob = true) (hmove : (inp.moveForward || inp.moveBackward) = true) :
    bobStage cfg sinq inp dt t
      = { t with bobTime := t.bobTime + dt * 8,
                 pos := ⟨t.pos.x, t.baseHeightRef + sinq (t.bobTime + dt * 8) * 0.03, t.pos.z⟩ } := by
  simp [bobStage, hbob, hmove]

lemma tick_bob_y (cfg : Config) (sinq : ℚ → ℚ) (inp : Input) (dt : ℚ) (s : State)
    (hbob : cfg.enableCameraBob = true) (hg : cfg.enableGravity = true)
    (hmove : (inp.moveForward || inp.moveBackward) = true) :
    (tick cfg sinq inp dt s).pos.y
        = cfg.playerHeight + updateHeightOffset inp s.cameraHeightOffset
          + sinq (s.bobTime + dt * 8) * 0.03 ∧
    (tick cfg sinq inp dt s).bobTime = s.bobTime + dt * 8 ∧
    ((tick cfg sinq inp dt s).velocityY = s.velocityY - 0.01 ∨
      (tick cfg sinq inp dt s).velocityY = 0) := by
  obtain ⟨-, m2, -, m4, m5, -⟩ := moveStage_vert cfg inp dt s
  obtain ⟨-, -, -, o4, -, o6, -⟩ := offsetStage_fields inp (moveStage cfg inp dt s)
  have ht_off : (offsetStage inp (moveStage cfg inp dt s)).cameraHeightOffset
      = updateHeightOffset inp s.cameraHeightOffset := by
    show updateHeightOffset inp (moveStage cfg inp dt s).cameraHeightOffset = _
    rw [m4]
  have ht_bob : (offsetStage inp (moveStage cfg inp dt s)).bobTime = s.bobTime := by
    rw [o6, m5]
  have ht_vy : (offsetStage inp (moveStage cfg inp dt s)).velocityY = s.velocityY := by
    rw [o4, m2]
  obtain ⟨gb, gvy, gbob⟩ :=
    gravityStage_base cfg (offsetStage inp (moveStage cfg inp dt s)) hg
  have hbs := bobStage_moving cfg sinq inp dt
    (gravityStage cfg (offsetStage inp (moveStage cfg inp dt s))) hbob hmove
  obtain ⟨-, -, c3, -, -, c6, -, -, c9, -⟩ := clampWorld_fields (tickCore cfg sinq inp dt s)
  refine ⟨?_, ?_, ?_⟩
  · rw [tick, c3]
    show (bobStage _ _ _ _ (gravityStage _ _)).pos.y = _
    rw [hbs]
    show (gravityStage _ _).baseHeightRef
        + sinq ((gravityStage _ _).bobTime + dt * 8) * 0.03 = _
    rw [gb, gbob, ht_off, ht_bob]
  · rw [tick, c9]
    show (bobStage _ _ _ _ (gravityStage _ _)).bobTime = _
    rw [hbs]
    show (gravityStage _ _).bobTime + dt * 8 = _
    rw [gbob, ht_bob]
  · rw [tick, c6]
    show (bobStage _ _ _ _ (gravityStage _ _)).velocityY = _ ∨
         (bobStage _ _ _ _ (gravityStage _ _)).velocityY = _
    obtain ⟨-, -, -, -, b5, -, -, -⟩ :=
      bobStage_horiz cfg sinq inp dt (gravityStage cfg (offsetStage inp (moveStage cfg inp dt s)))
    rw [b5]
    rcases gvy with hv | hv
    · exact Or.inl (by rw [hv, ht_vy])
    · exact Or.inr hv

lemma normalizeDeltaY_spec (d : ℝ) (h1 : -(3 * Real.pi) ≤ d) (h2 : d ≤ 3 * Real.pi) :
    -Real.pi ≤ normalizeDeltaY d ∧ normalizeDeltaY d ≤ Real.pi ∧
      ∃ m : ℤ, normalizeDeltaY d = d - 2 * Real.pi * m := by
  unfold normalizeDeltaY
  split_ifs with ha hb
  · refine ⟨by linarith, by linarith, 1, by push_cast; ring⟩
  · refine ⟨by linarith, by linarith, -1, by push_cast; ring⟩
  · refine ⟨by linarith, by linarith, 0, by push_cast; ring⟩

lemma preClamp_to_bounds (cfg : Config) (sinq : ℚ → ℚ) (inp : Input) (dt : ℚ) (s : State)
    (hc : checkCollision cfg (candidate cfg inp dt s) = false)
    (hx : s.currentPosition.x = s.pos.x) (hz : s.currentPosition.z = s.pos.z)
    (hpre : preClampInBounds cfg sinq inp dt s = true) :
    -15 ≤ s.pos.x + (stepDisp cfg inp dt s).1 ∧ s.pos.x + (stepDisp cfg inp dt s).1 ≤ 15 ∧
    -15 ≤ s.pos.z + (stepDisp cfg inp dt s).2 ∧ s.pos.z + (stepDisp cfg inp dt s).2 ≤ 15 := by
  obtain ⟨t1, t2, -, -⟩ := tickCore_horiz cfg sinq inp dt s
  have hm := moveStage_free cfg inp dt s hc
  have hmx : (moveStage cfg inp dt s).pos.x = s.pos.x + (stepDisp cfg inp dt s).1 := by
    rw [hm]
    exact lerp_step_x cfg inp dt s hx
  have hmz : (moveStage cfg inp dt s).pos.z = s.pos.z + (stepDisp cfg inp dt s).2 := by
    rw [hm]
    exact lerp_step_z cfg inp dt s hz
  simp only [preClampInBounds, Bool.and_eq_true, decide_eq_true_eq] at hpre
  obtain ⟨⟨⟨hp1, hp2⟩, hp3⟩, hp4⟩ := hpre
  rw [t1, hmx] at hp1 hp2
  rw [t2, hmz] at hp3 hp4
  exact ⟨hp1, hp2, hp3, hp4⟩

lemma stepDisp_road_of (cfg : Config) (inp : Input) (dt : ℚ) (s : State)
    (hr : isOnRoad cfg.roadSet s.pos.x s.pos.z = true) :
    stepDisp cfg inp dt s
      = (inp.dirX * ((cfg.speed * 2) * dt * 60) * qmin 1 (dt * 15),
         inp.dirZ * ((cfg.speed * 2) * dt * 60) * qmin 1 (dt * 15)) := by
  simp [stepDisp, hr]

lemma stepDisp_offroad_of (cfg : Config) (inp : Input) (dt : ℚ) (s : State)
    (hr : isOnRoad cfg.roadSet s.pos.x s.pos.z = false) :
    stepDisp cfg inp dt s
      = (inp.dirX * ((cfg.speed * 2 * 0.5) * dt * 60) * qmin 1 (dt * 15),
         inp.dirZ * ((cfg.speed * 2 * 0.5) * dt * 60) * qmin 1 (dt * 15)) := by
  simp [stepDisp, hr]

lemma tickIter_succ (cfg : Config) (sinq : ℚ → ℚ) (inp : Input) (dt : ℚ) (n : ℕ) (s : State) :
    tickIter cfg sinq inp dt (n + 1) s
      = tick cfg sinq inp dt (tickIter cfg sinq inp dt n s) := by
  induction n generalizing s with
  | zero => rfl
  | succ n ih =>
      show tickIter cfg sinq inp dt (n + 1) (tick cfg sinq inp dt s) = _
      rw [ih (tick cfg sinq inp dt s)]
      rfl

/-- Claim C4: world bounds invariant — after any tick, for any configuration,
input, tick duration and starting state, the published camera position
satisfies `|position.x| ≤ 15` and `|position.z| ≤ 15`. -/
theorem world_bounds_invariant (cfg : Config) (sinq : ℚ → ℚ) (inp : Input) (dt : ℚ)
    (s : State) :
    |(tick cfg sinq inp dt s).pos.x| ≤ 15 ∧ |(tick cfg sinq inp dt s).pos.z| ≤ 15 := by
  obtain ⟨c1, c2, -, -, -, -, -, -, -, -⟩ := clampWorld_fields (tickCore cfg sinq inp dt s)
  constructor
  · rw [tick, c1]
    exact abs_le.mpr ⟨qclamp_lower _, qclamp_upper _⟩
  · rw [tick, c2]
    exact abs_le.mpr ⟨qclamp_lower _, qclamp_upper _⟩

/-- Claim C5: `Teleport(x, z)` sets `position.x = x`, `position.z = z`, sets
`position.y` (and the smoothed/target positions) to
`groundHeight + playerHeight + heightOffset` for the height offset in effect
before the call, zeroes the vertical velocity, and re-enables jump
eligibility immediately. -/
theorem teleport_preserves_height_trim (cfg : Config) (x z : ℚ) (s : State) :
    (teleportPlayer cfg x z s).pos
        = ⟨x, cfg.playerHeight + s.cameraHeightOffset, z⟩ ∧
    (teleportPlayer cfg x z s).targetPosition
        = ⟨x, cfg.playerHeight + s.cameraHeightOffset, z⟩ ∧
    (teleportPlayer cfg x z s).currentPosition
        = ⟨x, cfg.playerHeight + s.cameraHeightOffset, z⟩ ∧
    (teleportPlayer cfg x z s).baseHeightRef = cfg.playerHeight + s.cameraHeightOffset ∧
    (teleportPlayer cfg x z s).velocityY = 0 ∧
    (teleportPlayer cfg x z s).canJump = true := by
  simp [teleportPlayer]

/-- Claim C6, counterexample: `__teleportPlayer` itself does not clamp — a
direct teleport to `(100, 100)` publishes position `(100, 100)`, which is not
the clamped value `15` and lies outside the world bounds. -/
theorem teleport_unclamped_counterexample :
    (teleportPlayer sampleConfig 100 100 spawnState).pos.x = 100 ∧
    (teleportPlayer sampleConfig 100 100 spawnState).pos.z = 100 ∧
    qmax (-15) (qmin 15 (100 : ℚ)) = 15 ∧
    ¬ |(teleportPlayer sampleConfig 100 100 spawnState).pos.x| ≤ 15 := by
  norm_num [teleportPlayer, sampleConfig, spawnState, qmax, qmin]

/-- Claim C6, amended: the clamp lives in the minimap caller, not in
`__teleportPlayer` — a minimap-initiated teleport applies exactly the
world-bounds-clamped click coordinates, so positions published via the
minimap teleport flow are always within bounds. -/
theorem minimap_teleport_clamped (size clickX clickY : ℚ) (cfg : Config) (s : State) :
    (minimapTeleport size clickX clickY cfg s).pos.x
        = qmax (-15) (qmin 15 (clickX / (size / 30) - 15)) ∧
    (minimapTeleport size clickX clickY cfg s).pos.z
        = qmax (-15) (qmin 15 (clickY / (size / 30) - 15)) ∧
    |(minimapTeleport size clickX clickY cfg s).pos.x| ≤ 15 ∧
    |(minimapTeleport size clickX clickY cfg s).pos.z| ≤ 15 := by
  refine ⟨rfl, rfl, ?_, ?_⟩
  · show |qmax (-15) (qmin 15 (clickX / (size / 30) - 15))| ≤ 15
    exact abs_le.mpr ⟨qclamp_lower _, qclamp_upper _⟩
  · show |qmax (-15) (qmin 15 (clickY / (size / 30) - 15))| ≤ 15
    exact abs_le.mpr ⟨qclamp_lower _, qclamp_upper _⟩

/-- Claim C7, counterexample: the rotation smoothing factor is not the
exponential `1 - exp(-15·dt)` — at `dt = 1`, current yaw `0`, target yaw `1`,
the code produces yaw `1` (the linear factor `min 1 (15·dt)` saturates at 1),
while the claimed exponential blend would produce `1 - exp(-15) < 1`. -/
theorem rotation_blend_not_exponential :
    (rotationLerp ⟨0, 0⟩ ⟨0, 1⟩ 1).y
      ≠ (0 : ℝ) + (1 - 0) * (1 - Real.exp (-(15 * 1))) := by
  have hval : (rotationLerp ⟨0, 0⟩ ⟨0, 1⟩ 1).y = 1 := by
    have hpi := Real.pi_gt_three
    have hpos := Real.pi_pos
    show (0 : ℝ) + normalizeDeltaY (1 - 0) * min 1 (1 * 15) = 1
    rw [show ((1 : ℝ) - 0) = 1 by norm_num]
    unfold normalizeDeltaY
    rw [if_neg (by push_neg; linarith), if_neg (by push_neg; linarith)]
    rw [min_eq_left (by norm_num)]
    norm_num
  rw [hval]
  intro h
  have h2 : Real.exp (-(15 * 1)) = 0 := by linarith
  exact absurd h2 (ne_of_gt (Real.exp_pos _))

/-- Claim C7, amended: on every tick the orientation is blended toward the
target with the clamped linear factor `min 1 (15·dt)` (not an exponential
factor); the yaw delta is first passed through a single-step wrap which, for
deltas within `[-3π, 3π]`, lands in `[-π, π]` and differs from the raw delta
by an integer multiple of `2π` (shortest path up to the boundary tie at
`±π`); pitch is blended with the same factor, unwrapped. -/
theorem rotation_blend_law (current target : Euler2) (delta : ℝ)
    (h1 : -(3 * Real.pi) ≤ target.y - current.y)
    (h2 : target.y - current.y ≤ 3 * Real.pi) :
    (rotationLerp current target delta).y
        = current.y + normalizeDeltaY (target.y - current.y) * min 1 (delta * 15) ∧
    (rotationLerp current target delta).x
        = current.x + (target.x - current.x) * min 1 (delta * 15) ∧
    -Real.pi ≤ normalizeDeltaY (target.y - current.y) ∧
    normalizeDeltaY (target.y - current.y) ≤ Real.pi ∧
    ∃ m : ℤ, normalizeDeltaY (target.y - current.y)
        = target.y - current.y - 2 * Real.pi * m := by
  obtain ⟨hr1, hr2, hr3⟩ := normalizeDeltaY_spec (target.y - current.y) h1 h2
  exact ⟨rfl, rfl, hr1, hr2, hr3⟩

/-- Witness for `rotation_blend_law` at current yaw `0`, target yaw `4`,
`dt = 1/30`: the delta `4` lies within `[-3π, 3π]` and wraps to `4 - 2π`. -/
theorem rotation_blend_law_witness :
    (-(3 * Real.pi) ≤ (Euler2.mk 0 4).y - (Euler2.mk 0 0).y) ∧
    ((Euler2.mk 0 4).y - (Euler2.mk 0 0).y ≤ 3 * Real.pi) ∧
    (normalizeDeltaY ((Euler2.mk 0 4).y - (Euler2.mk 0 0).y) = 4 - 2 * Real.pi) ∧
    ((rotationLerp (Euler2.mk 0 0) (Euler2.mk 0 4) (1/30)).y
        = (Euler2.mk 0 0).y
          + normalizeDeltaY ((Euler2.mk 0 4).y - (Euler2.mk 0 0).y) * min 1 ((1/30) * 15) ∧
     (rotationLerp (Euler2.mk 0 0) (Euler2.mk 0 4) (1/30)).x
        = (Euler2.mk 0 0).x
          + ((Euler2.mk 0 4).x - (Euler2.mk 0 0).x) * min 1 ((1/30) * 15) ∧
     -Real.pi ≤ normalizeDeltaY ((Euler2.mk 0 4).y - (Euler2.mk 0 0).y) ∧
     normalizeDeltaY ((Euler2.mk 0 4).y - (Euler2.mk 0 0).y) ≤ Real.pi ∧
     ∃ m : ℤ, normalizeDeltaY ((Euler2.mk 0 4).y - (Euler2.mk 0 0).y)
        = (Euler2.mk 0 4).y - (Euler2.mk 0 0).y - 2 * Real.pi * m) := by
  have hpi3 := Real.pi_gt_three
  have hpi4 := Real.pi_lt_d2
  have h1 : -(3 * Real.pi) ≤ (Euler2.mk 0 4).y - (Euler2.mk 0 0).y := by
    show -(3 * Real.pi) ≤ (4 : ℝ) - 0
    linarith
  have h2 : (Euler2.mk 0 4).y - (Euler2.mk 0 0).y ≤ 3 * Real.pi := by
    show (4 : ℝ) - 0 ≤ 3 * Real.pi
    linarith
  have hev : normalizeDeltaY ((Euler2.mk 0 4).y - (Euler2.mk 0 0).y) = 4 - 2 * Real.pi := by
    show normalizeDeltaY ((4 : ℝ) - 0) = 4 - 2 * Real.pi
    rw [show ((4 : ℝ) - 0) = 4 by norm_num]
    unfold normalizeDeltaY
    rw [if_pos (by linarith : (4 : ℝ) > Real.pi)]
  exact ⟨h1, h2, hev, rotation_blend_law (Euler2.mk 0 0) (Euler2.mk 0 4) (1/30) h1 h2⟩

/-- Claim C1 (the code at its failing input): one second of constant forward
input, all other things equal, covers a horizontal distance of 3 world units
when simulated at `dt = 1/30` but only 3/8 of a unit at `dt = 1/240` — the
smoothing lerp factor `min 1 (15·dt)` multiplied into the already
dt-normalized move makes the realized displacement frame-rate dependent,
contradicting the spec and the code's own `Frame-rate independent` comment. -/
theorem framerate_dependence_at_failing_input :
    (runTicks sampleConfig zeroSin forwardInput (List.replicate 30 (1/30)) spawnState).pos.z
        = -3 ∧
    (runTicks sampleConfig zeroSin forwardInput (List.replicate 240 (1/240)) spawnState).pos.z
        = -(3/8) := by
  have hdx30 : offroadDispX sampleConfig forwardInput (1/30) = 0 := by
    norm_num [offroadDispX, forwardInput, sampleConfig]
  have hdz30 : offroadDispZ sampleConfig forwardInput (1/30) = -(1/10) := by
    norm_num [offroadDispZ, forwardInput, sampleConfig, qmin]
  have hdx240 : offroadDispX sampleConfig forwardInput (1/240) = 0 := by
    norm_num [offroadDispX, forwardInput, sampleConfig]
  have hdz240 : offroadDispZ sampleConfig forwardInput (1/240) = -(1/640) := by
    norm_num [offroadDispZ, forwardInput, sampleConfig, qmin]
  have h30 := runTicks_replicate_offroad sampleConfig zeroSin forwardInput (1/30) 30
    spawnState rfl rfl rfl rfl (by
      intro k hk
      have hk' : (k : ℚ) ≤ 30 := by exact_mod_cast hk
      have hk0 : (0 : ℚ) ≤ (k : ℚ) := Nat.cast_nonneg k
      rw [hdx30, hdz30]
      show -15 ≤ (0 : ℚ) + k * 0 ∧ (0 : ℚ) + k * 0 ≤ 15 ∧
        -15 ≤ (0 : ℚ) + k * -(1/10) ∧ (0 : ℚ) + k * -(1/10) ≤ 15
      refine ⟨by linarith, by linarith, by linarith, by linarith⟩)
  have h240 := runTicks_replicate_offroad sampleConfig zeroSin forwardInput (1/240) 240
    spawnState rfl rfl rfl rfl (by
      intro k hk
      have hk' : (k : ℚ) ≤ 240 := by exact_mod_cast hk
      have hk0 : (0 : ℚ) ≤ (k : ℚ) := Nat.cast_nonneg k
      rw [hdx240, hdz240]
      show -15 ≤ (0 : ℚ) + k * 0 ∧ (0 : ℚ) + k * 0 ≤ 15 ∧
        -15 ≤ (0 : ℚ) + k * -(1/640) ∧ (0 : ℚ) + k * -(1/640) ≤ 15
      refine ⟨by linarith, by linarith, by linarith, by linarith⟩)
  constructor
  · rw [h30.2, hdz30]
    show (0 : ℚ) + 30 * -(1/10) = -3
    norm_num
  · rw [h240.2, hdz240]
    show (0 : ℚ) + 240 * -(1/640) = -(3/8)
    norm_num

lemma jsRound_eq_floor (x : ℚ) : jsRound x = ⌊x + 0.5⌋ := by
  rw [jsRound, Rat.floor_def', ← Rat.floor_def]

/-- Claim C2: holding forward for the same sequence of tick durations while
every tick tests on-road covers exactly 2 times the horizontal distance
covered when every tick tests off-road, all other inputs and configuration
equal, with no collisions and no bounds clamping. -/
theorem road_speed_ratio (cfg : Config) (sinq : ℚ → ℚ) (inp : Input) (dts : List ℚ)
    (sA sB : State)
    (hAx : sA.currentPosition.x = sA.pos.x) (hAz : sA.currentPosition.z = sA.pos.z)
    (hBx : sB.currentPosition.x = sB.pos.x) (hBz : sB.currentPosition.z = sB.pos.z)
    (hA : steadyRun cfg sinq inp true dts sA = true)
    (hB : steadyRun cfg sinq inp false dts sB = true) :
    (runTicks cfg sinq inp dts sA).pos.x - sA.pos.x
        = 2 * ((runTicks cfg sinq inp dts sB).pos.x - sB.pos.x) ∧
    (runTicks cfg sinq inp dts sA).pos.z - sA.pos.z
        = 2 * ((runTicks cfg sinq inp dts sB).pos.z - sB.pos.z) := by
  induction dts generalizing sA sB with
  | nil =>
      simp [runTicks]
  | cons dt rest ih =>
      simp only [steadyRun, Bool.and_eq_true, Bool.not_eq_true', beq_iff_eq] at hA hB
      obtain ⟨⟨⟨hrA, hcA⟩, hpreA⟩, hrestA⟩ := hA
      obtain ⟨⟨⟨hrB, hcB⟩, hpreB⟩, hrestB⟩ := hB
      obtain ⟨bA1, bA2, bA3, bA4⟩ := preClamp_to_bounds cfg sinq inp dt sA hcA hAx hAz hpreA
      obtain ⟨bB1, bB2, bB3, bB4⟩ := preClamp_to_bounds cfg sinq inp dt sB hcB hBx hBz hpreB
      obtain ⟨pA1, pA2, pA3, pA4⟩ := tick_free_step cfg sinq inp dt sA hcA hAx hAz bA1 bA2 bA3 bA4
      obtain ⟨pB1, pB2, pB3, pB4⟩ := tick_free_step cfg sinq inp dt sB hcB hBx hBz bB1 bB2 bB3 bB4
      have hdispA := stepDisp_road_of cfg inp dt sA hrA
      have hdispB := stepDisp_offroad_of cfg inp dt sB hrB
      obtain ⟨e1, e2⟩ := ih (tick cfg sinq inp dt sA) (tick cfg sinq inp dt sB)
        pA3 pA4 pB3 pB4 hrestA hrestB
      have hrunA : runTicks cfg sinq inp (dt :: rest) sA
          = runTicks cfg sinq inp rest (tick cfg sinq inp dt sA) := rfl
      have hrunB : runTicks cfg sinq inp (dt :: rest) sB
          = runTicks cfg sinq inp rest (tick cfg sinq inp dt sB) := rfl
      rw [hdispA] at pA1 pA2
      rw [hdispB] at pB1 pB2
      rw [hrunA, hrunB]
      have hd2x : inp.dirX * ((cfg.speed * 2) * dt * 60) * qmin 1 (dt * 15)
          = 2 * (inp.dirX * ((cfg.speed * 2 * 0.5) * dt * 60) * qmin 1 (dt * 15)) := by
        ring
      have hd2z : inp.dirZ * ((cfg.speed * 2) * dt * 60) * qmin 1 (dt * 15)
          = 2 * (inp.dirZ * ((cfg.speed * 2 * 0.5) * dt * 60) * qmin 1 (dt * 15)) := by
        ring
      constructor
      · rw [pA1] at e1
        rw [pB1] at e1
        linarith [e1, hd2x]
      · rw [pA2] at e2
        rw [pB2] at e2
        linarith [e2, hd2z]

/-- Witness for `road_speed_ratio`: one tick of `dt = 1/60` starting on the
road cell `(15, 15)` (run A) versus starting off-road at `x = 10` (run B):
run A moves 0.05 units, run B 0.025 units. -/
theorem road_speed_ratio_witness :
    (spawnState.currentPosition.x = spawnState.pos.x ∧
     spawnState.currentPosition.z = spawnState.pos.z ∧
     offroadState.currentPosition.x = offroadState.pos.x ∧
     offroadState.currentPosition.z = offroadState.pos.z ∧
     steadyRun roadConfig zeroSin forwardInput true [1/60] spawnState = true ∧
     steadyRun roadConfig zeroSin forwardInput false [1/60] offroadState = true) ∧
    ((runTicks roadConfig zeroSin forwardInput [1/60] spawnState).pos.x - spawnState.pos.x
        = 2 * ((runTicks roadConfig zeroSin forwardInput [1/60] offroadState).pos.x
                - offroadState.pos.x) ∧
     (runTicks roadConfig zeroSin forwardInput [1/60] spawnState).pos.z - spawnState.pos.z
        = 2 * ((runTicks roadConfig zeroSin forwardInput [1/60] offroadState).pos.z
                - offroadState.pos.z)) := by
  have hA : steadyRun roadConfig zeroSin forwardInput true [1/60] spawnState = true := by
    norm_num [steadyRun, preClampInBounds, tickCore, bobStage, gravityStage, offsetStage,
      moveStage, candidate, checkCollision, isOnRoad, jsRound_eq_floor, updateHeightOffset,
      qmin, qmax, Vec3.lerp, getGroundHeight, tick, clampWorld, spawnState, forwardInput,
      zeroSin, roadConfig]
  have hB : steadyRun roadConfig zeroSin forwardInput false [1/60] offroadState = true := by
    norm_num [steadyRun, preClampInBounds, tickCore, bobStage, gravityStage, offsetStage,
      moveStage, candidate, checkCollision, isOnRoad, jsRound_eq_floor, updateHeightOffset,
      qmin, qmax, Vec3.lerp, getGroundHeight, tick, clampWorld, offroadState, forwardInput,
      zeroSin, roadConfig]
  exact ⟨⟨rfl, rfl, rfl, rfl, hA, hB⟩,
    road_speed_ratio roadConfig zeroSin forwardInput [1/60] spawnState offroadState
      rfl rfl rfl rfl hA hB⟩

/-- Claim C3: on any tick whose candidate position collides, the move is
rejected — the horizontal position after the tick equals the position before
it and the smoothing targets collapse to it — and repeating such ticks never
changes the horizontal position. -/
theorem collision_rejection_idempotent (cfg : Config) (sinq : ℚ → ℚ) (inp : Input) (dt : ℚ)
    (s : State) (n : ℕ)
    (hb1 : -15 ≤ s.pos.x) (hb2 : s.pos.x ≤ 15) (hb3 : -15 ≤ s.pos.z) (hb4 : s.pos.z ≤ 15)
    (hcol : ∀ k, k < n →
      checkCollision cfg (candidate cfg inp dt (tickIter cfg sinq inp dt k s)) = true) :
    (∀ k, k ≤ n → (tickIter cfg sinq inp dt k s).pos.x = s.pos.x ∧
                  (tickIter cfg sinq inp dt k s).pos.z = s.pos.z) ∧
    (∀ k, k < n →
      (tickIter cfg sinq inp dt (k + 1) s).targetPosition.x = s.pos.x ∧
      (tickIter cfg sinq inp dt (k + 1) s).targetPosition.z = s.pos.z ∧
      (tickIter cfg sinq inp dt (k + 1) s).currentPosition.x = s.pos.x ∧
      (tickIter cfg sinq inp dt (k + 1) s).currentPosition.z = s.pos.z) := by
  have hpos : ∀ k, k ≤ n → (tickIter cfg sinq inp dt k s).pos.x = s.pos.x ∧
      (tickIter cfg sinq inp dt k s).pos.z = s.pos.z := by
    intro k
    induction k with
    | zero => intro _; exact ⟨rfl, rfl⟩
    | succ k ihk =>
        intro hk
        obtain ⟨px, pz⟩ := ihk (by omega)
        have hc := hcol k (by omega)
        obtain ⟨q1, q2, -, -, -, -⟩ :=
          tick_collide_step cfg sinq inp dt (tickIter cfg sinq inp dt k s) hc
            (by rw [px]; exact hb1) (by rw [px]; exact hb2)
            (by rw [pz]; exact hb3) (by rw [pz]; exact hb4)
        rw [tickIter_succ]
        exact ⟨by rw [q1, px], by rw [q2, pz]⟩
  refine ⟨hpos, ?_⟩
  intro k hk
  obtain ⟨px, pz⟩ := hpos k (by omega)
  have hc := hcol k hk
  obtain ⟨-, -, t1, t2, t3, t4⟩ :=
    tick_collide_step cfg sinq inp dt (tickIter cfg sinq inp dt k s) hc
      (by rw [px]; exact hb1) (by rw [px]; exact hb2)
      (by rw [pz]; exact hb3) (by rw [pz]; exact hb4)
  rw [tickIter_succ]
  exact ⟨by rw [t1, px], by rw [t2, pz], by rw [t3, px], by rw [t4, pz]⟩

/-- Witness for `collision_rejection_idempotent`: a player at `(4.3, 1.6, 5)`
walking `+x` into the building box `[4.65, 0, 4.65] – [5.35, 2, 5.35]`; both
of two consecutive ticks collide and the position never moves. -/
theorem collision_rejection_idempotent_witness :
    ((-15 : ℚ) ≤ collideState.pos.x ∧ collideState.pos.x ≤ 15 ∧
     (-15 : ℚ) ≤ collideState.pos.z ∧ collideState.pos.z ≤ 15 ∧
     (∀ k, k < 2 → checkCollision collideConfig
        (candidate collideConfig plusXInput (1/60)
          (tickIter collideConfig zeroSin plusXInput (1/60) k collideState)) = true)) ∧
    ((∀ k, k ≤ 2 →
        (tickIter collideConfig zeroSin plusXInput (1/60) k collideState).pos.x
            = collideState.pos.x ∧
        (tickIter collideConfig zeroSin plusXInput (1/60) k collideState).pos.z
            = collideState.pos.z) ∧
     (∀ k, k < 2 →
        (tickIter collideConfig zeroSin plusXInput (1/60) (k + 1) collideState).targetPosition.x
            = collideState.pos.x ∧
        (tickIter collideConfig zeroSin plusXInput (1/60) (k + 1) collideState).targetPosition.z
            = collideState.pos.z ∧
        (tickIter collideConfig zeroSin plusXInput (1/60) (k + 1) collideState).currentPosition.x
            = collideState.pos.x ∧
        (tickIter collideConfig zeroSin plusXInput (1/60) (k + 1) collideState).currentPosition.z
            = collideState.pos.z)) := by
  have hb1 : (-15 : ℚ) ≤ collideState.pos.x := by norm_num [collideState]
  have hb2 : collideState.pos.x ≤ 15 := by norm_num [collideState]
  have hb3 : (-15 : ℚ) ≤ collideState.pos.z := by norm_num [collideState]
  have hb4 : collideState.pos.z ≤ 15 := by norm_num [collideState]
  have hcol : ∀ k, k < 2 → checkCollision collideConfig
      (candidate collideConfig plusXInput (1/60)
        (tickIter collideConfig zeroSin plusXInput (1/60) k collideState)) = true := by
    intro k hk
    interval_cases k
    · norm_num [tickIter, candidate, checkCollision, playerBoxAt, Box3.intersects,
        collideConfig, collideState, plusXInput, isOnRoad, jsRound_eq_floor, qmin, qmax]
    · norm_num [tickIter, tick, clampWorld, tickCore, bobStage, gravityStage, offsetStage,
        moveStage, candidate, checkCollision, playerBoxAt, Box3.intersects,
        updateHeightOffset, getGroundHeight, Vec3.lerp, qmin, qmax, isOnRoad,
        jsRound_eq_floor, collideConfig, collideState, plusXInput, zeroSin]
  exact ⟨⟨hb1, hb2, hb3, hb4, hcol⟩,
    collision_rejection_idempotent collideConfig zeroSin plusXInput (1/60) collideState 2
      hb1 hb2 hb3 hb4 hcol⟩

/-- Claim C8: a jump request while grounded and jump-eligible transitions to
airborne with positive vertical velocity and jump eligibility cleared; then,
ticking forward under gravity with no further input, after 30 ticks the state
is grounded again with zero vertical velocity, jump re-enabled, and the
camera height back at the ground target height. -/
theorem grounded_airborne_round_trip (cfg : Config) (sinq : ℚ → ℚ) (inp : Input) (dt : ℚ)
    (s : State)
    (hg : cfg.enableGravity = true)
    (hf : inp.moveForward = false) (hb : inp.moveBackward = false)
    (hu : inp.moveUp = false) (hd : inp.moveDown = false)
    (hcj : s.canJump = true) (hvy : s.velocityY = 0)
    (hy : s.pos.y = cfg.playerHeight + s.cameraHeightOffset) :
    (spaceJump s).velocityY > 0 ∧ (spaceJump s).canJump = false ∧
    (tickIter cfg sinq inp dt 30 (spaceJump s)).pos.y
        = cfg.playerHeight + s.cameraHeightOffset ∧
    (tickIter cfg sinq inp dt 30 (spaceJump s)).velocityY = 0 ∧
    (tickIter cfg sinq inp dt 30 (spaceJump s)).canJump = true := by
  have hjump : spaceJump s = { s with velocityY := s.velocityY + 0.15, canJump := false } := by
    simp [spaceJump, hcj]
  have hvy' : (spaceJump s).velocityY = 0.15 := by
    rw [hjump]
    simp [hvy]
  have hcj' : (spaceJump s).canJump = false := by rw [hjump]
  have hoffj : (spaceJump s).cameraHeightOffset = s.cameraHeightOffset := by rw [hjump]
  have hyj : (spaceJump s).pos.y = cfg.playerHeight + s.cameraHeightOffset := by
    rw [hjump]
    exact hy
  obtain ⟨hv, -⟩ := tickIter_vert cfg sinq inp dt hg hf hb hu hd 30 (spaceJump s)
  rw [hoffj, hyj, hvy', hcj'] at hv
  have hs := vrun_shift 0 (cfg.playerHeight + s.cameraHeightOffset) 30 (0, 0.15, false)
  rw [vrun_roundtrip] at hs
  simp only [zero_add] at hs
  rw [hs] at hv
  simp only [Prod.mk.injEq] at hv
  refine ⟨by rw [hvy']; norm_num, hcj', hv.1, hv.2.1, hv.2.2⟩

/-- Witness for `grounded_airborne_round_trip`: the default configuration,
rest state at spawn, no input, `dt = 1/60`. -/
theorem grounded_airborne_round_trip_witness :
    (sampleConfig.enableGravity = true ∧ noInput.moveForward = false ∧
     noInput.moveBackward = false ∧ noInput.moveUp = false ∧ noInput.moveDown = false ∧
     restState.canJump = true ∧ restState.velocityY = 0 ∧
     restState.pos.y = sampleConfig.playerHeight + restState.cameraHeightOffset) ∧
    ((spaceJump restState).velocityY > 0 ∧ (spaceJump restState).canJump = false ∧
     (tickIter sampleConfig zeroSin noInput (1/60) 30 (spaceJump restState)).pos.y
        = sampleConfig.playerHeight + restState.cameraHeightOffset ∧
     (tickIter sampleConfig zeroSin noInput (1/60) 30 (spaceJump restState)).velocityY = 0 ∧
     (tickIter sampleConfig zeroSin noInput (1/60) 30 (spaceJump restState)).canJump = true) := by
  have h8 : restState.pos.y = sampleConfig.playerHeight + restState.cameraHeightOffset := by
    norm_num [restState, sampleConfig]
  exact ⟨⟨rfl, rfl, rfl, rfl, rfl, rfl, rfl, h8⟩,
    grounded_airborne_round_trip sampleConfig zeroSin noInput (1/60) restState
      rfl rfl rfl rfl rfl rfl rfl h8⟩

/-- Claim C9: the click-to-select query restricts hits to the fixed maximum
raycast distance 50, selects the nearest in-range hit, reports no selection
for a road cell, reports exactly the hit cell's identifier for a non-road
cell, and reports no selection when nothing is hit in range.  The query is a
pure function of the hit list and land snapshot. -/
theorem selection_excludes_roads (lands : List Land) (hits : List RayHit)
    (h : RayHit) (land : Land)
    (hch : closestHit (hitsInRange 50 hits) = some h)
    (hfind : lands.find? (fun l => l.id == h.landId) = some land) :
    (h ∈ hits ∧ h.distance ≤ 50 ∧
      ∀ h' ∈ hits, h'.distance ≤ 50 → h.distance ≤ h'.distance) ∧
    pickCell lands hits = (if land.zone = Zone.road then none else some land.id) ∧
    (∀ hits' : List RayHit, closestHit (hitsInRange 50 hits') = none →
      pickCell lands hits' = none) := by
  obtain ⟨hmem, hmin⟩ := closestHit_spec _ h hch
  rw [mem_hitsInRange] at hmem
  refine ⟨⟨hmem.1, hmem.2, ?_⟩, ?_, ?_⟩
  · intro h' hh' hd'
    exact hmin h' ((mem_hitsInRange 50 hits h').mpr ⟨hh', hd'⟩)
  · simp only [pickCell, hch, hfind]
    by_cases hz : land.zone = Zone.road <;> simp [hz]
  · intro hits' hnone
    simp [pickCell, hnone]

/-- Witness for `selection_excludes_roads`: two hits, the residential cell
`p1` at distance 10 and the road cell `r1` at distance 60; the in-range
nearest hit is `p1` and the query reports `p1`. -/
theorem selection_excludes_roads_witness :
    (closestHit (hitsInRange 50 sampleHits) = some (RayHit.mk "p1" 10) ∧
     [roadLand, plotLand].find? (fun l => l.id == (RayHit.mk "p1" 10).landId)
        = some plotLand) ∧
    ((RayHit.mk "p1" 10 ∈ sampleHits ∧ (RayHit.mk "p1" 10).distance ≤ 50 ∧
      ∀ h' ∈ sampleHits, h'.distance ≤ 50 → (RayHit.mk "p1" 10).distance ≤ h'.distance) ∧
     pickCell [roadLand, plotLand] sampleHits
        = (if plotLand.zone = Zone.road then none else some plotLand.id) ∧
     (∀ hits' : List RayHit, closestHit (hitsInRange 50 hits') = none →
        pickCell [roadLand, plotLand] hits' = none)) := by
  have hch : closestHit (hitsInRange 50 sampleHits) = some (RayHit.mk "p1" 10) := by
    norm_num [closestHit, hitsInRange, closerHit, sampleHits]
  have hfind : [roadLand, plotLand].find? (fun l => l.id == (RayHit.mk "p1" 10).landId)
      = some plotLand := by
    rfl
  exact ⟨⟨hch, hfind⟩,
    selection_excludes_roads [roadLand, plotLand] sampleHits (RayHit.mk "p1" 10) plotLand
      hch hfind⟩

/-- Claim C10: with camera bob enabled and a movement key held, the tick's
final published height is `baseHeight + sin(bobPhase)·bobAmount`, assigned
after (and overwriting) the gravity/jump integration — it depends only on the
height offset and bob phase, never on the vertical velocity or incoming
height, while the vertical velocity keeps evolving underneath. -/
theorem camera_bob_overrides_vertical (cfg : Config) (sinq : ℚ → ℚ) (inp : Input) (dt : ℚ)
    (s : State)
    (hbob : cfg.enableCameraBob = true) (hg : cfg.enableGravity = true)
    (hmove : (inp.moveForward || inp.moveBackward) = true) :
    (tick cfg sinq inp dt s).pos.y
        = cfg.playerHeight + updateHeightOffset inp s.cameraHeightOffset
          + sinq (s.bobTime + dt * 8) * 0.03 ∧
    (tick cfg sinq inp dt s).bobTime = s.bobTime + dt * 8 ∧
    ((tick cfg sinq inp dt s).velocityY = s.velocityY - 0.01 ∨
      (tick cfg sinq inp dt s).velocityY = 0) ∧
    (∀ s' : State, s'.cameraHeightOffset = s.cameraHeightOffset → s'.bobTime = s.bobTime →
      (tick cfg sinq inp dt s').pos.y = (tick cfg sinq inp dt s).pos.y) := by
  obtain ⟨hy, hbt, hvy⟩ := tick_bob_y cfg sinq inp dt s hbob hg hmove
  refine ⟨hy, hbt, hvy, ?_⟩
  intro s' h1 h2
  obtain ⟨hy', -, -⟩ := tick_bob_y cfg sinq inp dt s' hbob hg hmove
  rw [hy', hy, h1, h2]

/-- Witness for `camera_bob_overrides_vertical`: default configuration,
forward input, spawn state, `dt = 1/60`. -/
theorem camera_bob_overrides_vertical_witness :
    (sampleConfig.enableCameraBob = true ∧ sampleConfig.enableGravity = true ∧
     (forwardInput.moveForward || forwardInput.moveBackward) = true) ∧
    ((tick sampleConfig zeroSin forwardInput (1/60) spawnState).pos.y
        = sampleConfig.playerHeight
          + updateHeightOffset forwardInput spawnState.cameraHeightOffset
          + zeroSin (spawnState.bobTime + (1/60) * 8) * 0.03 ∧
     (tick sampleConfig zeroSin forwardInput (1/60) spawnState).bobTime
        = spawnState.bobTime + (1/60) * 8 ∧
     ((tick sampleConfig zeroSin forwardInput (1/60) spawnState).velocityY
        = spawnState.velocityY - 0.01 ∨
      (tick sampleConfig zeroSin forwardInput (1/60) spawnState).velocityY = 0) ∧
     (∀ s' : State, s'.cameraHeightOffset = spawnState.cameraHeightOffset →
        s'.bobTime = spawnState.bobTime →
        (tick sampleConfig zeroSin forwardInput (1/60) s').pos.y
          = (tick sampleConfig zeroSin forwardInput (1/60) spawnState).pos.y)) :=
  ⟨⟨rfl, rfl, rfl⟩,
    camera_bob_overrides_vertical sampleConfig zeroSin forwardInput (1/60) spawnState
      rfl rfl rfl⟩

end Onecity
